import Mathlib

/-
Shallow embedding of src/proxy/nanogpt_proxy.py (NanoGPT Flask proxy).

The embedding models the two routes that carry the decision logic:
  * chat_completions  (POST /v1/chat/completions, lines 98-252)
  * proxy_status      (GET /status, lines 254-316)

External effects are made explicit:
  * The network environment is a list pairing each candidate base URL with
    the outcome of the single POST issued against it (an HTTP response or a
    transport exception).  The response carries both its raw text and the
    result of the external JSON parse of that text (none when response.json()
    raises), since parsing is delegated to the requests library.
  * Each handler returns, besides the HTTP response it sends to the caller,
    the trace of outbound POSTs it performed (URL and payload), so that
    claims about which endpoints are contacted are statable.
  * Logging, timing, headers and the API key are out of scope (the return
    contract does not depend on them).

Python dynamic semantics that the handler relies on are modelled
explicitly: dictionary membership and subscription, the dict .get method,
len, and truthiness.  Operations that raise on a value of the wrong
dynamic type (for example the membership test on an integer, or .get on a
non-dict) are modelled as returning none; in the source every such
exception propagates to the final catch-all arm (line 250), which answers
500.  The Timeout/ConnectionError arms at lines 234-240 are unreachable
from the candidate loop, because the per-candidate handler at lines
179-181 catches every exception and continues; a parse failure of an
authoritative 200 body is routed to the JSONDecodeError arm at lines
246-248.
-/

namespace NanoProxy

/-- JSON values, as produced by the external parser. -/
inductive Json where
  | null : Json
  | bool : Bool → Json
  | num : Int → Json
  | str : String → Json
  | arr : List Json → Json
  | obj : List (String × Json) → Json

/-- Python truthiness of a JSON value (used by the source in the checks
at lines 124 and 202). -/
def truthy : Json → Bool
  | Json.null => false
  | Json.bool b => b
  | Json.num n => !(n == 0)
  | Json.str s => !(s == "")
  | Json.arr xs => !xs.isEmpty
  | Json.obj kvs => !kvs.isEmpty

/-- First binding of a key in an association list (Python dict lookup;
parsed JSON objects have unique keys, so first-match is exact). -/
def getKey (kvs : List (String × Json)) (k : String) : Option Json :=
  match kvs with
  | [] => none
  | (k0, v) :: rest => if k0 = k then some v else getKey rest k

/-- Python dict item assignment d[k] = v: replaces the value in place when
the key is present, appends the binding at the end otherwise. -/
def setKey (kvs : List (String × Json)) (k : String) (v : Json) : List (String × Json) :=
  match kvs with
  | [] => [(k, v)]
  | (k0, v0) :: rest => if k0 = k then (k, v) :: rest else (k0, v0) :: setKey rest k v

/-- Key lookup on a JSON value when it is an object, none otherwise. -/
def jsonLookup : Json → String → Option Json
  | Json.obj kvs, k => getKey kvs k
  | _, _ => none

/-- Whether the character list pat occurs at the head of hay. -/
def leadsWith : List Char → List Char → Bool
  | [], _ => true
  | _ :: _, [] => false
  | a :: as, b :: bs => a == b && leadsWith as bs

/-- Whether the character list pat occurs anywhere inside hay. -/
def occursIn (pat hay : List Char) : Bool :=
  match hay with
  | [] => leadsWith pat []
  | _ :: cs => leadsWith pat hay || occursIn pat cs

/-- Python substring test pat in hay for strings. -/
def strContains (hay pat : String) : Bool :=
  occursIn pat.data hay.data

/-- Python membership test k in j.  For a dict it tests the keys, for a
list it tests equality with the elements, for a string it is the
substring test; on any other value the test raises TypeError, modelled
as none. -/
def pyContains (j : Json) (k : String) : Option Bool :=
  match j with
  | Json.obj kvs => some (getKey kvs k).isSome
  | Json.arr xs => some (xs.any fun x => match x with | Json.str s => s == k | _ => false)
  | Json.str s => some (strContains s k)
  | _ => none

/-- Python subscription j[k] with a string key.  Defined (inside the
source, always behind a membership guard) only for dicts; on every other
value it raises (TypeError, or KeyError for a dict missing the key),
modelled as none. -/
def pySubscript (j : Json) (k : String) : Option Json :=
  match j with
  | Json.obj kvs => getKey kvs k
  | _ => none

/-- Python subscription j[0]: first element of a list, first character of
a string; raises on any other value (modelled as none). -/
def pyIndex0 : Json → Option Json
  | Json.arr (x :: _) => some x
  | Json.str s =>
    match s.data with
    | [] => none
    | c :: _ => some (Json.str (String.mk [c]))
  | _ => none

/-- Python method call j.get(k, dflt): only dicts have a get method, any
other receiver raises AttributeError (modelled as none). -/
def pyGetD (j : Json) (k : String) (dflt : Json) : Option Json :=
  match j with
  | Json.obj kvs => some ((getKey kvs k).getD dflt)
  | _ => none

/-- Python len of a JSON value: defined for strings, lists and dicts,
raises TypeError otherwise (modelled as none). -/
def pyLen : Json → Option Nat
  | Json.str s => some s.length
  | Json.arr xs => some xs.length
  | Json.obj kvs => some kvs.length
  | _ => none

/-- Line 207 of the source: the content-length logging metric
choices0.get(message, empty dict).get(content, empty string) followed by
len.  none when any step of the chain raises. -/
def contentMetric (c0 : Json) : Option Nat :=
  (pyGetD c0 "message" (Json.obj [])).bind fun m =>
    (pyGetD m "content" (Json.str "")).bind fun c => pyLen c

/-- An HTTP response the proxy sends to its caller: status code and
jsonify-ed body. -/
structure HttpResp where
  status : Nat
  body : Json

/-- The raw result of one upstream POST that returned: HTTP status, raw
body text, and the result of parsing that text as JSON (none when the
external parser raises). -/
structure Resp where
  status : Nat
  text : String
  parsed : Option Json

/-- Transport-level failures a POST can raise instead of returning. -/
inductive TransportError where
  | timeout : TransportError
  | connectionError : TransportError
  | other : TransportError

/-- Outcome of one candidate attempt: a response or a raised transport
exception. -/
inductive Attempt where
  | resp : Nat → String → Option Json → Attempt
  | exn : TransportError → Attempt

/-- Error body of line 125. -/
def errNoData : Json := Json.obj [("error", Json.str "No JSON data provided")]

/-- Error body of line 139. -/
def errMissingMessages : Json :=
  Json.obj [("error", Json.str "Missing required field: messages")]

/-- Error body of lines 188-191. -/
def errAllFailed : Json :=
  Json.obj
    [("error", Json.str "All NanoGPT API configurations failed"),
     ("message", Json.str "Unable to find a working API endpoint. The NanoGPT service may be down or the API format has changed.")]

/-- Error body of line 204. -/
def errInvalidResponse : Json :=
  Json.obj [("error", Json.str "Invalid response from NanoGPT API")]

/-- Error body of lines 214-217. -/
def errAuth : Json :=
  Json.obj
    [("error", Json.str "Authentication failed"),
     ("message", Json.str "Invalid or expired NanoGPT API key")]

/-- Error body of lines 221-224. -/
def errRate : Json :=
  Json.obj
    [("error", Json.str "Rate limit exceeded"),
     ("message", Json.str "Too many requests to NanoGPT API")]

/-- Error body of lines 246-248 (the 200 body failed to parse as JSON). -/
def errInvalidJson : Json :=
  Json.obj
    [("error", Json.str "Invalid response"),
     ("message", Json.str "NanoGPT returned invalid JSON")]

/-- Error body of lines 250-252 (the catch-all arm). -/
def errInternal : Json :=
  Json.obj
    [("error", Json.str "Internal server error"),
     ("message", Json.str "An unexpected error occurred")]

/-- Lines 197-210: handling of an authoritative 200 response.  The parse
failure of the body lands in the JSONDecodeError arm (502); a parsed body
then passes the guard of line 202 (membership test, subscription,
truthiness) and the content-length metric of line 207; any step of those
raising lands in the catch-all arm (500); otherwise the parsed body is
returned verbatim with status 200. -/
def classify200 (parsed : Option Json) : HttpResp :=
  match parsed with
  | none => ⟨502, errInvalidJson⟩
  | some d =>
    match pyContains d "choices" with
    | none => ⟨500, errInternal⟩
    | some false => ⟨502, errInvalidResponse⟩
    | some true =>
      match pySubscript d "choices" with
      | none => ⟨500, errInternal⟩
      | some cv =>
        if !(truthy cv) then ⟨502, errInvalidResponse⟩
        else
          match (pyIndex0 cv).bind contentMetric with
          | none => ⟨500, errInternal⟩
          | some _ => ⟨200, d⟩

/-- Lines 197-232: the response classification chain over the
authoritative upstream response. -/
def classify (r : Resp) : HttpResp :=
  if r.status == 200 then classify200 r.parsed
  else if r.status == 401 then ⟨401, errAuth⟩
  else if r.status == 429 then ⟨429, errRate⟩
  else
    ⟨r.status,
     Json.obj
       [("error", Json.str ("NanoGPT API error: " ++ toString r.status)),
        ("message", Json.str (r.text.take 200))]⟩

/-- Line 56: the primary base URL (modelled at its documented default;
the environment override is external configuration). -/
def NANOGPT_BASE_URL : String := "https://nano-gpt.com/api/v1"

/-- Lines 60-67: the ordered candidate base URLs. -/
def ALTERNATIVE_BASE_URLS : List String :=
  ["https://nano-gpt.com/api/v1",
   "http://nano-gpt.com/api/v1",
   "https://api.nanogpt.com",
   "http://api.nanogpt.com",
   "https://nanogpt.com/api/v1",
   "http://nanogpt.com/api/v1"]

/-- Lines 158-161: the endpoint path chosen for a base URL. -/
def endpointFor (base : String) : String :=
  if strContains base "nano-gpt.com/api/v1" then "/chat/completions"
  else "/v1/chat/completions"

/-- Line 164: the full URL a candidate is POSTed to. -/
def fullUrl (base : String) : String :=
  base ++ endpointFor base

/-- The fixed default model string of line 143. -/
def defaultModel : Json := Json.str "moonshotai/Kimi-K2-Instruct-0905"

/-- Lines 142-146: the payload forwarded upstream is the inbound object
with the model key defaulted when absent and the stream key overwritten
to false (both via dict item assignment). -/
def forwardPayload (kvs : List (String × Json)) : Json :=
  Json.obj
    (setKey
      (match getKey kvs "model" with
       | some _ => kvs
       | none => setKey kvs "model" defaultModel)
      "stream" (Json.bool false))

/-- State produced by the candidate loop of lines 152-184: the final
value of the response variable, and the trace of POSTs issued (URL and
payload). -/
structure ResolveOut where
  response : Option Resp
  trace : List (String × Json)

/-- Lines 156-184: iterate the candidates in order.  A raised transport
exception is caught by the per-candidate handler (lines 179-181) and the
loop continues with the response variable unchanged; a 404/405 response
is recorded and the loop continues; any other response breaks the loop
immediately. -/
def resolveLoop (payload : Json) : List (String × Attempt) → Option Resp → ResolveOut
  | [], r => ⟨r, []⟩
  | (base, att) :: rest, r =>
    match att with
    | Attempt.exn _ =>
      let o := resolveLoop payload rest r
      ⟨o.response, (fullUrl base, payload) :: o.trace⟩
    | Attempt.resp s t d =>
      if s == 404 || s == 405 then
        let o := resolveLoop payload rest (some ⟨s, t, d⟩)
        ⟨o.response, (fullUrl base, payload) :: o.trace⟩
      else
        ⟨some ⟨s, t, d⟩, [(fullUrl base, payload)]⟩

/-- Lines 152-232: run the candidate loop, answer 502 when it exhausted
without an authoritative response (line 186), classify the authoritative
response otherwise. -/
def runResolve (payload : Json) (env : List (String × Attempt)) :
    HttpResp × List (String × Json) :=
  match resolveLoop payload env none with
  | ⟨none, tr⟩ => (⟨502, errAllFailed⟩, tr)
  | ⟨some r, tr⟩ =>
    if r.status == 404 || r.status == 405 then (⟨502, errAllFailed⟩, tr)
    else (classify r, tr)

/-- Lines 98-252: the POST /v1/chat/completions handler.  The inbound
body is the result of request.get_json() (none when no body was parsed).
The environment env pairs each candidate base URL with the outcome of
the POST against it; in deployment the bases are ALTERNATIVE_BASE_URLS.
Returns the response sent to the caller and the trace of outbound POSTs.
A truthy non-object body that survives the messages membership test
makes the item assignments of lines 143/146 raise TypeError, which the
catch-all arm turns into the 500 response. -/
def chat_completions (reqBody : Option Json) (env : List (String × Attempt)) :
    HttpResp × List (String × Json) :=
  match reqBody with
  | none => (⟨400, errNoData⟩, [])
  | some d =>
    if !(truthy d) then (⟨400, errNoData⟩, [])
    else
      match pyContains d "messages" with
      | none => (⟨500, errInternal⟩, [])
      | some false => (⟨400, errMissingMessages⟩, [])
      | some true =>
        match d with
        | Json.obj kvs => runResolve (forwardPayload kvs) env
        | _ => (⟨500, errInternal⟩, [])

/-- The URL the status probe tries first (line 275). -/
def statusPrimaryUrl : String := NANOGPT_BASE_URL ++ "/chat/completions"

/-- The legacy URL the status probe falls back to (line 285). -/
def statusLegacyUrl : String := "https://api.nanogpt.com/v1/chat/completions"

/-- Body answered by the probe when an attempt returned a response
(lines 300-307; the measured latency, timestamp and api-key flag are
runtime observables outside the embedding). -/
def statusBody (s : Nat) : Json :=
  Json.obj
    [("proxy_status", Json.str "operational"),
     ("nanogpt_connectivity", Json.str (if s == 200 then "success" else "failed")),
     ("nanogpt_status_code", Json.num (Int.ofNat s))]

/-- Body answered by the probe when both attempts raised
(lines 292-298). -/
def statusBothFailedBody : Json :=
  Json.obj
    [("proxy_status", Json.str "operational"),
     ("nanogpt_connectivity", Json.str "failed"),
     ("error", Json.str "Both API formats failed")]

/-- Lines 254-316: the GET /status handler.  It POSTs the minimal test
request to the primary URL; only when that attempt raises does it POST
to the legacy URL; when both raise, the failure is reported in-body.
The arguments give the outcome of each of the two possible POSTs, and
the returned trace lists the URLs actually contacted. -/
def proxy_status (primary legacy : Attempt) : HttpResp × List String :=
  match primary with
  | Attempt.resp s _ _ => (⟨200, statusBody s⟩, [statusPrimaryUrl])
  | Attempt.exn _ =>
    match legacy with
    | Attempt.resp s _ _ => (⟨200, statusBody s⟩, [statusPrimaryUrl, statusLegacyUrl])
    | Attempt.exn _ => (⟨200, statusBothFailedBody⟩, [statusPrimaryUrl, statusLegacyUrl])

/-- A candidate attempt the loop skips past: a raised transport
exception, or a 404/405 response. -/
def skippableA : Attempt → Bool
  | Attempt.exn _ => true
  | Attempt.resp s _ _ => s == 404 || s == 405

/-- A candidate attempt that returned HTTP 404 or 405. -/
def is404or405 : Attempt → Bool
  | Attempt.resp s _ _ => s == 404 || s == 405
  | Attempt.exn _ => false

/-- Whether the response variable still holds nothing authoritative. -/
def optSkippable : Option Resp → Bool
  | none => true
  | some r => r.status == 404 || r.status == 405

/-- Looking up the key just written by setKey yields the written value. -/
theorem getKey_setKey_same (kvs : List (String × Json)) (k : String) (v : Json) :
    getKey (setKey kvs k v) k = some v := by
  induction kvs with
  | nil => simp [setKey, getKey]
  | cons hd tl ih =>
    obtain ⟨k0, v0⟩ := hd
    by_cases h : k0 = k
    · simp [setKey, getKey, h]
    · simp [setKey, getKey, h, ih]

/-- setKey leaves every other key unchanged. -/
theorem getKey_setKey_other (kvs : List (String × Json)) (k k2 : String) (v : Json)
    (h : k2 ≠ k) : getKey (setKey kvs k v) k2 = getKey kvs k2 := by
  have h2 : ¬(k = k2) := fun hh => h hh.symm
  induction kvs with
  | nil => simp [setKey, getKey, h2]
  | cons hd tl ih =>
    obtain ⟨k0, v0⟩ := hd
    by_cases h0 : k0 = k
    · subst h0
      simp [setKey, getKey, h2]
    · simp only [setKey, getKey, if_neg h0]
      by_cases h3 : k0 = k2
      · simp [getKey, h3]
      · simp [getKey, h3, ih]

/-- Every POST recorded by the candidate loop carries the same forwarded
payload. -/
theorem resolveLoop_trace_payload (payload : Json) (env : List (String × Attempt)) :
    ∀ r, ∀ x ∈ (resolveLoop payload env r).trace, x.2 = payload := by
  induction env with
  | nil => intro r x hx; simp [resolveLoop] at hx
  | cons hd tl ih =>
    intro r x hx
    obtain ⟨b, a⟩ := hd
    cases a with
    | exn e =>
      simp only [resolveLoop, List.mem_cons] at hx
      rcases hx with h | h
      · rw [h]
      · exact ih r x h
    | resp s t d =>
      cases hs : (s == 404 || s == 405) with
      | true =>
        simp only [resolveLoop, hs, if_pos, List.mem_cons] at hx
        rcases hx with h | h
        · rw [h]
        · exact ih _ x h
      | false =>
        simp only [resolveLoop, hs, Bool.false_eq_true, if_false, List.mem_singleton] at hx
        rw [hx]

/-- While every candidate seen so far was skippable, the response
variable never holds an authoritative response. -/
theorem resolveLoop_skippable (payload : Json) (env : List (String × Attempt)) :
    ∀ r, (∀ x ∈ env, skippableA x.2 = true) → optSkippable r = true →
      optSkippable (resolveLoop payload env r).response = true := by
  induction env with
  | nil => intro r _ hr; simpa [resolveLoop] using hr
  | cons hd tl ih =>
    intro r hall hr
    obtain ⟨b, a⟩ := hd
    cases a with
    | exn e =>
      simp only [resolveLoop]
      exact ih r (fun x hx => hall x (List.mem_cons_of_mem _ hx)) hr
    | resp s t d =>
      have hs : (s == 404 || s == 405) = true := by
        have := hall (b, Attempt.resp s t d) (List.mem_cons_self _ _)
        simpa [skippableA] using this
      simp only [resolveLoop, hs, if_pos]
      exact ih (some ⟨s, t, d⟩) (fun x hx => hall x (List.mem_cons_of_mem _ hx))
        (by simpa [optSkippable] using hs)

/-- The trace returned to the caller is the trace of the loop. -/
theorem runResolve_trace (payload : Json) (env : List (String × Attempt)) :
    (runResolve payload env).2 = (resolveLoop payload env none).trace := by
  unfold runResolve
  rcases resolveLoop payload env none with ⟨_ | r, tr⟩
  · rfl
  · dsimp only
    split <;> rfl

/-- When every candidate is skippable, the exhaustion arm of line 186
answers 502. -/
theorem runResolve_skippable (payload : Json) (env : List (String × Attempt))
    (hall : ∀ x ∈ env, skippableA x.2 = true) :
    (runResolve payload env).1 = ⟨502, errAllFailed⟩ := by
  have h := resolveLoop_skippable payload env none hall rfl
  unfold runResolve
  rcases hre : resolveLoop payload env none with ⟨_ | r, tr⟩
  · rfl
  · rw [hre] at h
    simp only [optSkippable] at h
    simp [h]

/-- A nonempty object with a messages key is truthy and passes the
membership test of line 138. -/
theorem valid_body_checks (kvs : List (String × Json)) (m : Json)
    (hm : getKey kvs "messages" = some m) :
    truthy (Json.obj kvs) = true ∧ pyContains (Json.obj kvs) "messages" = some true := by
  constructor
  · cases kvs with
    | nil => simp [getKey] at hm
    | cons hd tl => simp [truthy]
  · simp [pyContains, hm]

/-- A valid request whose every candidate is skippable draws the 502
exhaustion response. -/
theorem chat_skippable_502 (reqKvs : List (String × Json)) (m : Json)
    (env : List (String × Attempt))
    (hm : getKey reqKvs "messages" = some m)
    (hall : ∀ x ∈ env, skippableA x.2 = true) :
    (chat_completions (some (Json.obj reqKvs)) env).1 = ⟨502, errAllFailed⟩ := by
  obtain ⟨htr, hpc⟩ := valid_body_checks reqKvs m hm
  simp only [chat_completions, htr, Bool.not_true, Bool.false_eq_true, if_false, hpc]
  exact runResolve_skippable _ env hall

/-- After a prefix of 404/405 responses, the first candidate whose
response has any other status breaks the loop: it becomes the
authoritative response and no later candidate is contacted. -/
theorem resolveLoop_break (payload : Json) (b : String) (s : Nat) (t : String)
    (d : Option Json) (rest : List (String × Attempt)) :
    ∀ (pre : List (String × Attempt)) (r : Option Resp),
      (∀ x ∈ pre, is404or405 x.2 = true) →
      (s == 404 || s == 405) = false →
      resolveLoop payload (pre ++ (b, Attempt.resp s t d) :: rest) r
        = ⟨some ⟨s, t, d⟩,
           pre.map (fun x => (fullUrl x.1, payload)) ++ [(fullUrl b, payload)]⟩ := by
  intro pre
  induction pre with
  | nil => intro r _ hs; simp [resolveLoop, hs]
  | cons hd tl ih =>
    intro r hall hs
    obtain ⟨b0, a0⟩ := hd
    have h0 : is404or405 a0 = true := hall (b0, a0) (List.mem_cons_self _ _)
    cases a0 with
    | exn e => simp [is404or405] at h0
    | resp s0 t0 d0 =>
      have hs0 : (s0 == 404 || s0 == 405) = true := by simpa [is404or405] using h0
      simp only [List.cons_append, resolveLoop, hs0, if_pos, List.append_eq]
      rw [ih (some ⟨s0, t0, d0⟩) (fun x hx => hall x (List.mem_cons_of_mem _ hx)) hs]
      simp

/-- A 200 body whose choices list is nonempty and whose first choice
survives the content-length metric is returned verbatim. -/
theorem classify200_success (kvs : List (String × Json)) (c0 : Json) (cs : List Json)
    (hc : getKey kvs "choices" = some (Json.arr (c0 :: cs)))
    (hok : (contentMetric c0).isSome = true) :
    classify200 (some (Json.obj kvs)) = ⟨200, Json.obj kvs⟩ := by
  obtain ⟨n, hn⟩ := Option.isSome_iff_exists.mp hok
  simp [classify200, pyContains, pySubscript, hc, truthy, pyIndex0, hn]

/-- C1 (corrected): with the first K candidates answering 404/405 and
candidate K+1 answering 200 with a body whose nonempty choices list has
a first element the content-length metric of line 207 can process, the
handler contacts exactly the first K+1 candidates and returns the parsed
body verbatim with status 200.  (Without the shape condition on the
first choice the metric raises and the catch-all arm answers 500, see
the counterexample.) -/
theorem c1_selects_first_authoritative
    (reqKvs : List (String × Json)) (m : Json)
    (hm : getKey reqKvs "messages" = some m)
    (pre : List (String × Attempt))
    (hpre : ∀ x ∈ pre, is404or405 x.2 = true)
    (b t : String) (rest : List (String × Attempt))
    (kvs : List (String × Json)) (c0 : Json) (cs : List Json)
    (hc : getKey kvs "choices" = some (Json.arr (c0 :: cs)))
    (hok : (contentMetric c0).isSome = true) :
    chat_completions (some (Json.obj reqKvs))
        (pre ++ (b, Attempt.resp 200 t (some (Json.obj kvs))) :: rest)
      = (⟨200, Json.obj kvs⟩,
         pre.map (fun x => (fullUrl x.1, forwardPayload reqKvs))
           ++ [(fullUrl b, forwardPayload reqKvs)]) := by
  obtain ⟨htr, hpc⟩ := valid_body_checks reqKvs m hm
  simp only [chat_completions, htr, Bool.not_true, Bool.false_eq_true, if_false, hpc]
  unfold runResolve
  rw [resolveLoop_break (forwardPayload reqKvs) b 200 t (some (Json.obj kvs)) rest pre none hpre rfl]
  simp only []
  have h200 : classify ⟨200, t, some (Json.obj kvs)⟩ = ⟨200, Json.obj kvs⟩ := by
    simp [classify, classify200_success kvs c0 cs hc hok]
  simp [h200]

/-- C1 counterexample: with K = 0 the first candidate answers 200 and a
body with the nonempty choices list [5]; the claim promises Success with
status 200, but the integer element has no get method, the metric of
line 207 raises AttributeError and the catch-all arm answers 500. -/
theorem c1_counterexample :
    (chat_completions (some (Json.obj [("messages", Json.arr [Json.str "m"])]))
        [("https://nano-gpt.com/api/v1",
          Attempt.resp 200 "" (some (Json.obj [("choices", Json.arr [Json.num 5])]))),
         ("http://nano-gpt.com/api/v1", Attempt.resp 404 "" none)]).1
      = ⟨500, errInternal⟩ ∧ (500 : Nat) ≠ 200 :=
  ⟨rfl, by decide⟩

/-- C1 witness: one 404 candidate, then a 200 candidate with a
well-formed choices list; the handler stops there and passes the body
through. -/
theorem c1_witness :
    chat_completions (some (Json.obj [("messages", Json.arr [])]))
        ([("a", Attempt.resp 404 "" none)]
          ++ ("b", Attempt.resp 200 "" (some (Json.obj [("choices", Json.arr [Json.obj []])]))) :: [])
      = (⟨200, Json.obj [("choices", Json.arr [Json.obj []])]⟩,
         [("a", Attempt.resp 404 "" none)].map
             (fun x => (fullUrl x.1, forwardPayload [("messages", Json.arr [])]))
           ++ [(fullUrl "b", forwardPayload [("messages", Json.arr [])])]) :=
  c1_selects_first_authoritative [("messages", Json.arr [])] (Json.arr []) rfl
    [("a", Attempt.resp 404 "" none)] (by decide) "b" "" []
    [("choices", Json.arr [Json.obj []])] (Json.obj []) [] rfl rfl

/-- C2: when every candidate attempt is a 404/405 response or a raised
transport exception, a valid request always draws the terminal
no-working-endpoint failure with status 502 and its fixed body. -/
theorem c2_all_skippable_502 (reqKvs : List (String × Json)) (m : Json)
    (env : List (String × Attempt))
    (hm : getKey reqKvs "messages" = some m)
    (hall : ∀ x ∈ env, skippableA x.2 = true) :
    (chat_completions (some (Json.obj reqKvs)) env).1 = ⟨502, errAllFailed⟩ :=
  chat_skippable_502 reqKvs m env hm hall

/-- C2 witness: two candidates answering 404 and 405 exhaust into the
502 response. -/
theorem c2_witness :
    (chat_completions (some (Json.obj [("messages", Json.arr [])]))
        [("u", Attempt.resp 404 "" none), ("v", Attempt.resp 405 "" none)]).1
      = ⟨502, errAllFailed⟩ :=
  c2_all_skippable_502 [("messages", Json.arr [])] (Json.arr []) _ rfl (by decide)

/-- C3 counterexample: the only (hence final) candidate raises a
timeout; the claim promises the Timeout outcome with status 504, but the
per-candidate handler of lines 179-181 swallows the exception, the loop
exhausts, and the handler answers 502 with the no-working-endpoint
body. -/
theorem c3_counterexample :
    (chat_completions (some (Json.obj [("messages", Json.arr [])]))
        [("u", Attempt.exn TransportError.timeout)]).1 = ⟨502, errAllFailed⟩ ∧
    (502 : Nat) ≠ 504 ∧ (502 : Nat) ≠ 503 :=
  ⟨rfl, by decide, by decide⟩

/-- C3 (corrected): a candidate that raises a transport exception is
skipped at every position, the loop continuing with the next candidate;
and when the final candidate raises while no candidate produced a
non-404/405 response, the overall outcome is the 502 exhaustion failure,
never the 504/503 arms, which are unreachable from the loop. -/
theorem c3_transport_skip_and_exhaustion :
    (∀ (payload : Json) (b : String) (e : TransportError)
        (rest : List (String × Attempt)) (r : Option Resp),
      resolveLoop payload ((b, Attempt.exn e) :: rest) r
        = ⟨(resolveLoop payload rest r).response,
           (fullUrl b, payload) :: (resolveLoop payload rest r).trace⟩) ∧
    (∀ (reqKvs : List (String × Json)) (m : Json) (env : List (String × Attempt))
        (b : String) (e : TransportError),
      getKey reqKvs "messages" = some m →
      (∀ x ∈ env, skippableA x.2 = true) →
      (chat_completions (some (Json.obj reqKvs)) (env ++ [(b, Attempt.exn e)])).1
        = ⟨502, errAllFailed⟩) := by
  constructor
  · intro payload b e rest r
    rfl
  · intro reqKvs m env b e hm hall
    refine chat_skippable_502 reqKvs m _ hm ?_
    intro x hx
    rcases List.mem_append.mp hx with h | h
    · exact hall x h
    · rcases List.mem_singleton.mp h with rfl
      rfl

/-- C3 witness: a 404 candidate followed by a final candidate raising a
timeout draws the 502 exhaustion response. -/
theorem c3_witness :
    (chat_completions (some (Json.obj [("messages", Json.arr [Json.str "m"])]))
        ([("a", Attempt.resp 404 "" none)] ++ [("b", Attempt.exn TransportError.timeout)])).1
      = ⟨502, errAllFailed⟩ :=
  c3_transport_skip_and_exhaustion.2 [("messages", Json.arr [Json.str "m"])]
    (Json.arr [Json.str "m"]) [("a", Attempt.resp 404 "" none)] "b"
    TransportError.timeout rfl (by decide)

/-- C4 counterexample: status 200 with the parsed body having choices
set to true passes the truthiness guard of line 202, but subscripting
the boolean at line 207 raises TypeError and the catch-all arm answers
500 — an outcome that is neither Success (200) nor MalformedResponse
(502), contradicting the claimed 200 mapping. -/
theorem c4_counterexample :
    classify ⟨200, "", some (Json.obj [("choices", Json.bool true)])⟩ = ⟨500, errInternal⟩ ∧
    (500 : Nat) ≠ 200 ∧ (500 : Nat) ≠ 502 :=
  ⟨rfl, by decide, by decide⟩

/-- C4 (corrected): classification is a pure total function of the
authoritative response; 401 maps to the auth failure, 429 to the rate
limit, every other non-200 status is forwarded with the same status and
the body truncated to 200 characters, and 200 maps to Success with the
parsed body verbatim, to one of the two MalformedResponse bodies (502),
or — when the guard of line 202 or the metric of line 207 raises on the
parsed body — to the internal-error response (500). -/
theorem c4_classify_total (r : Resp) :
    (r.status = 401 → classify r = ⟨401, errAuth⟩) ∧
    (r.status = 429 → classify r = ⟨429, errRate⟩) ∧
    (r.status ≠ 200 → r.status ≠ 401 → r.status ≠ 429 →
      classify r
        = ⟨r.status,
           Json.obj
             [("error", Json.str ("NanoGPT API error: " ++ toString r.status)),
              ("message", Json.str (r.text.take 200))]⟩) ∧
    (r.status = 200 →
      (∃ d, r.parsed = some d ∧ classify r = ⟨200, d⟩) ∨
      classify r = ⟨502, errInvalidResponse⟩ ∨
      classify r = ⟨502, errInvalidJson⟩ ∨
      classify r = ⟨500, errInternal⟩) := by
  refine ⟨?_, ?_, ?_, ?_⟩
  · intro h; simp [classify, h]
  · intro h; simp [classify, h]
  · intro h1 h2 h3; simp [classify, h1, h2, h3]
  · intro h200
    have hcl : classify r = classify200 r.parsed := by simp [classify, h200]
    rw [hcl]
    cases hp : r.parsed with
    | none => right; right; left; simp [classify200]
    | some d =>
      cases hpc : pyContains d "choices" with
      | none => right; right; right; simp [classify200, hpc]
      | some bb =>
        cases bb with
        | false => right; left; simp [classify200, hpc]
        | true =>
          cases hps : pySubscript d "choices" with
          | none => right; right; right; simp [classify200, hpc, hps]
          | some cv =>
            cases htv : truthy cv with
            | false => right; left; simp [classify200, hpc, hps, htv]
            | true =>
              cases hmc : (pyIndex0 cv).bind contentMetric with
              | none => right; right; right; simp [classify200, hpc, hps, htv, hmc]
              | some n =>
                left
                exact ⟨d, rfl, by simp [classify200, hpc, hps, htv, hmc]⟩

/-- C4 witness: a 401 response classifies to the auth-failure
response. -/
theorem c4_witness : classify ⟨401, "", none⟩ = ⟨401, errAuth⟩ :=
  (c4_classify_total ⟨401, "", none⟩).1 rfl

/-- C5 failing input evaluated: a 200 response whose parsed body is an
object with the nonempty choices list containing the single string x
passes the guard of line 202, but the string element has no get method,
so the metric of line 207 raises AttributeError and the catch-all arm
answers 500 — the claim requires Success here and rules out 500
entirely. -/
theorem c5_metric_crash_500 :
    classify ⟨200, "", some (Json.obj [("choices", Json.arr [Json.str "x"])])⟩
      = ⟨500, errInternal⟩ ∧
    (500 : Nat) ≠ 502 ∧ (500 : Nat) ≠ 200 :=
  ⟨rfl, by decide, by decide⟩

/-- C6: a request whose JSON object body has no messages key is rejected
with status 400 (line 125 when the object is empty and hence falsy, line
139 otherwise) and the trace of outbound POSTs is empty: no candidate is
contacted. -/
theorem c6_missing_messages_rejected (kvs : List (String × Json))
    (env : List (String × Attempt))
    (h : getKey kvs "messages" = none) :
    (chat_completions (some (Json.obj kvs)) env).1.status = 400 ∧
    (chat_completions (some (Json.obj kvs)) env).2 = [] := by
  cases kvs with
  | nil => exact ⟨rfl, rfl⟩
  | cons hd tl =>
    have htr : truthy (Json.obj (hd :: tl)) = true := by simp [truthy]
    have hpc : pyContains (Json.obj (hd :: tl)) "messages" = some false := by
      simp [pyContains, h]
    constructor <;> simp [chat_completions, htr, hpc, errMissingMessages]

/-- C6 witness: a body carrying only a model key is rejected with 400
and zero outbound calls. -/
theorem c6_witness :
    (chat_completions (some (Json.obj [("model", Json.str "x")])) []).1.status = 400 ∧
    (chat_completions (some (Json.obj [("model", Json.str "x")])) []).2 = [] :=
  c6_missing_messages_rejected [("model", Json.str "x")] [] rfl

/-- C7: every payload the handler POSTs to a candidate endpoint carries
stream set to false, whatever the caller supplied for stream (present,
true, or absent): line 146 overwrites the key before the loop, and the
same payload object is sent to every candidate. -/
theorem c7_stream_false (reqBody : Option Json) (env : List (String × Attempt))
    (x : String × Json) (hx : x ∈ (chat_completions reqBody env).2) :
    jsonLookup x.2 "stream" = some (Json.bool false) := by
  cases reqBody with
  | none => simp [chat_completions] at hx
  | some d =>
    cases htr : truthy d with
    | false => simp [chat_completions, htr] at hx
    | true =>
      cases hpc : pyContains d "messages" with
      | none => simp [chat_completions, htr, hpc] at hx
      | some bb =>
        cases bb with
        | false => simp [chat_completions, htr, hpc] at hx
        | true =>
          cases d with
          | obj kvs =>
            have hx2 : x ∈ (runResolve (forwardPayload kvs) env).2 := by
              simpa [chat_completions, htr, hpc] using hx
            rw [runResolve_trace] at hx2
            have hpay := resolveLoop_trace_payload (forwardPayload kvs) env none x hx2
            rw [hpay]
            cases hmod : getKey kvs "model" with
            | none => simp [forwardPayload, hmod, jsonLookup, getKey_setKey_same]
            | some v => simp [forwardPayload, hmod, jsonLookup, getKey_setKey_same]
          | null => simp [truthy] at htr
          | bool b2 => simp [pyContains] at hpc
          | num n => simp [pyContains] at hpc
          | str s => simp [chat_completions, htr, hpc] at hx
          | arr xs => simp [chat_completions, htr, hpc] at hx

/-- C7 witness: the caller omits stream; the payload POSTed to the one
404 candidate carries stream false. -/
theorem c7_witness :
    jsonLookup (Json.obj
        [("messages", Json.arr []), ("model", defaultModel), ("stream", Json.bool false)])
      "stream" = some (Json.bool false) :=
  c7_stream_false (some (Json.obj [("messages", Json.arr [])]))
    [("u", Attempt.resp 404 "" none)]
    ("u/v1/chat/completions",
      Json.obj [("messages", Json.arr []), ("model", defaultModel), ("stream", Json.bool false)])
    (List.Mem.head _)

/-- Both keys are found in a two-entry error body. -/
theorem errKeys_both (a b : Json) :
    (jsonLookup (Json.obj [("error", a), ("message", b)]) "error").isSome = true ∧
    (jsonLookup (Json.obj [("error", a), ("message", b)]) "message").isSome = true :=
  ⟨rfl, rfl⟩

/-- Every classification outcome other than Success carries the error
tag, and all but the malformed-choices body of line 204 also carry the
message field. -/
theorem classify_error_keys (r : Resp) (h : (classify r).status ≠ 200) :
    (jsonLookup (classify r).body "error").isSome = true ∧
    ((jsonLookup (classify r).body "message").isSome = true ∨
      (classify r).body = errInvalidResponse) := by
  by_cases h200 : r.status = 200
  · have hcl : classify r = classify200 r.parsed := by simp [classify, h200]
    rw [hcl] at h ⊢
    cases hp : r.parsed with
    | none => exact ⟨rfl, Or.inl rfl⟩
    | some d =>
      rw [hp] at h
      cases hpc : pyContains d "choices" with
      | none =>
        have hb : classify200 (some d) = ⟨500, errInternal⟩ := by simp [classify200, hpc]
        rw [hb]
        exact ⟨rfl, Or.inl rfl⟩
      | some bb =>
        cases bb with
        | false =>
          have hb : classify200 (some d) = ⟨502, errInvalidResponse⟩ := by
            simp [classify200, hpc]
          rw [hb]
          exact ⟨rfl, Or.inr rfl⟩
        | true =>
          cases hps : pySubscript d "choices" with
          | none =>
            have hb : classify200 (some d) = ⟨500, errInternal⟩ := by
              simp [classify200, hpc, hps]
            rw [hb]
            exact ⟨rfl, Or.inl rfl⟩
          | some cv =>
            cases htv : truthy cv with
            | false =>
              have hb : classify200 (some d) = ⟨502, errInvalidResponse⟩ := by
                simp [classify200, hpc, hps, htv]
              rw [hb]
              exact ⟨rfl, Or.inr rfl⟩
            | true =>
              cases hmc : (pyIndex0 cv).bind contentMetric with
              | none =>
                have hb : classify200 (some d) = ⟨500, errInternal⟩ := by
                  simp [classify200, hpc, hps, htv, hmc]
                rw [hb]
                exact ⟨rfl, Or.inl rfl⟩
              | some n =>
                have hb : classify200 (some d) = ⟨200, d⟩ := by
                  simp [classify200, hpc, hps, htv, hmc]
                rw [hb] at h
                exact absurd rfl h
  · by_cases h401 : r.status = 401
    · have hcl : classify r = ⟨401, errAuth⟩ := by simp [classify, h200, h401]
      rw [hcl]
      exact ⟨rfl, Or.inl rfl⟩
    · by_cases h429 : r.status = 429
      · have hcl : classify r = ⟨429, errRate⟩ := by simp [classify, h200, h401, h429]
        rw [hcl]
        exact ⟨rfl, Or.inl rfl⟩
      · have hcl : classify r
            = ⟨r.status,
               Json.obj
                 [("error", Json.str ("NanoGPT API error: " ++ toString r.status)),
                  ("message", Json.str (r.text.take 200))]⟩ := by
          simp [classify, h200, h401, h429]
        rw [hcl]
        exact ⟨rfl, Or.inl rfl⟩

/-- C8 counterexample: the 400 response for a missing body carries only
the error tag; it has no message field, contradicting the claim that
every user-visible error response carries both. -/
theorem c8_counterexample :
    (chat_completions none []).1 = ⟨400, errNoData⟩ ∧
    jsonLookup errNoData "message" = none :=
  ⟨rfl, rfl⟩

/-- C8 (corrected): every non-200 response of the handler carries the
machine-readable error tag, and all also carry the human-readable
message field except three bodies that carry only the tag: the two
validation failures (missing body, missing messages) and the
malformed-choices 502 of line 204. -/
theorem c8_error_tag (reqBody : Option Json) (env : List (String × Attempt))
    (h : (chat_completions reqBody env).1.status ≠ 200) :
    (jsonLookup (chat_completions reqBody env).1.body "error").isSome = true ∧
    ((jsonLookup (chat_completions reqBody env).1.body "message").isSome = true ∨
      (chat_completions reqBody env).1.body = errNoData ∨
      (chat_completions reqBody env).1.body = errMissingMessages ∨
      (chat_completions reqBody env).1.body = errInvalidResponse) := by
  cases reqBody with
  | none => exact ⟨rfl, Or.inr (Or.inl rfl)⟩
  | some d =>
    cases htr : truthy d with
    | false =>
      have hce : chat_completions (some d) env = (⟨400, errNoData⟩, []) := by
        simp [chat_completions, htr]
      rw [hce]
      exact ⟨rfl, Or.inr (Or.inl rfl)⟩
    | true =>
      cases hpc : pyContains d "messages" with
      | none =>
        have hce : chat_completions (some d) env = (⟨500, errInternal⟩, []) := by
          simp [chat_completions, htr, hpc]
        rw [hce]
        exact ⟨rfl, Or.inl rfl⟩
      | some bb =>
        cases bb with
        | false =>
          have hce : chat_completions (some d) env = (⟨400, errMissingMessages⟩, []) := by
            simp [chat_completions, htr, hpc]
          rw [hce]
          exact ⟨rfl, Or.inr (Or.inr (Or.inl rfl))⟩
        | true =>
          cases d with
          | obj kvs =>
            have hce : chat_completions (some (Json.obj kvs)) env
                = runResolve (forwardPayload kvs) env := by
              simp [chat_completions, htr, hpc]
            rw [hce] at h ⊢
            unfold runResolve at h ⊢
            rcases hre : resolveLoop (forwardPayload kvs) env none with ⟨ro, tr⟩
            rw [hre] at h
            cases ro with
            | none => exact ⟨rfl, Or.inl rfl⟩
            | some rr =>
              dsimp only at h ⊢
              by_cases h44 : (rr.status == 404 || rr.status == 405) = true
              · rw [if_pos h44] at h ⊢
                exact ⟨rfl, Or.inl rfl⟩
              · rw [if_neg h44] at h ⊢
                have hck := classify_error_keys rr h
                exact ⟨hck.1, hck.2.elim Or.inl (fun he => Or.inr (Or.inr (Or.inr he)))⟩
          | null => simp [truthy] at htr
          | bool b2 => simp [pyContains] at hpc
          | num n => simp [pyContains] at hpc
          | str s =>
            have hce : chat_completions (some (Json.str s)) env = (⟨500, errInternal⟩, []) := by
              simp [chat_completions, htr, hpc]
            rw [hce]
            exact ⟨rfl, Or.inl rfl⟩
          | arr xs =>
            have hce : chat_completions (some (Json.arr xs)) env = (⟨500, errInternal⟩, []) := by
              simp [chat_completions, htr, hpc]
            rw [hce]
            exact ⟨rfl, Or.inl rfl⟩

/-- C8 witness: the missing-body rejection carries the error tag and is
one of the three tag-only bodies. -/
theorem c8_witness :
    (jsonLookup (chat_completions none []).1.body "error").isSome = true ∧
    ((jsonLookup (chat_completions none []).1.body "message").isSome = true ∨
      (chat_completions none []).1.body = errNoData ∨
      (chat_completions none []).1.body = errMissingMessages ∨
      (chat_completions none []).1.body = errInvalidResponse) :=
  c8_error_tag none [] (by decide)

/-- C9 counterexample: when the probe POST to the primary URL raises,
the probe also contacts the legacy URL, a different endpoint —
contradicting the claim that the primary is the only upstream endpoint
the probe ever contacts. -/
theorem c9_counterexample :
    statusLegacyUrl ∈
      (proxy_status (Attempt.exn TransportError.timeout)
        (Attempt.exn TransportError.timeout)).2 ∧
    statusLegacyUrl ≠ statusPrimaryUrl := by
  constructor
  · simp [proxy_status]
  · decide

/-- C9 (corrected): the probe always contacts the primary URL first;
when that attempt returns a response, the primary is the only endpoint
contacted, and when it raises a transport exception, the probe
additionally contacts exactly the one legacy fallback URL. -/
theorem c9_probe_contacts (s : Nat) (t : String) (d : Option Json)
    (l l2 : Attempt) (e : TransportError) :
    (proxy_status (Attempt.resp s t d) l).2 = [statusPrimaryUrl] ∧
    (proxy_status (Attempt.exn e) l2).2 = [statusPrimaryUrl, statusLegacyUrl] := by
  refine ⟨rfl, ?_⟩
  cases l2 <;> rfl

/-- C10: the forwarded payload is the inbound object with exactly two
edits — stream overwritten to false and model defaulted only when
absent; every other key maps to the same value as in the inbound object,
and every POST of the handler carries exactly this payload. -/
theorem c10_forward_frame (kvs : List (String × Json)) :
    jsonLookup (forwardPayload kvs) "stream" = some (Json.bool false) ∧
    (∀ v, getKey kvs "model" = some v →
      jsonLookup (forwardPayload kvs) "model" = some v) ∧
    (getKey kvs "model" = none →
      jsonLookup (forwardPayload kvs) "model" = some defaultModel) ∧
    (∀ k, k ≠ "stream" → k ≠ "model" →
      jsonLookup (forwardPayload kvs) k = getKey kvs k) ∧
    (∀ (env : List (String × Attempt)) (x : String × Json) (m : Json),
      getKey kvs "messages" = some m →
      x ∈ (chat_completions (some (Json.obj kvs)) env).2 →
      x.2 = forwardPayload kvs) := by
  refine ⟨?_, ?_, ?_, ?_, ?_⟩
  · cases hmod : getKey kvs "model" with
    | none => simp [forwardPayload, hmod, jsonLookup, getKey_setKey_same]
    | some v => simp [forwardPayload, hmod, jsonLookup, getKey_setKey_same]
  · intro v hv
    simp only [forwardPayload, hv, jsonLookup]
    rw [getKey_setKey_other _ _ _ _ (by decide)]
    exact hv
  · intro hv
    simp only [forwardPayload, hv, jsonLookup]
    rw [getKey_setKey_other _ _ _ _ (by decide)]
    exact getKey_setKey_same kvs "model" defaultModel
  · intro k h1 h2
    cases hmod : getKey kvs "model" with
    | none =>
      simp only [forwardPayload, hmod, jsonLookup]
      rw [getKey_setKey_other _ _ _ _ h1, getKey_setKey_other _ _ _ _ h2]
    | some v =>
      simp only [forwardPayload, hmod, jsonLookup]
      rw [getKey_setKey_other _ _ _ _ h1]
  · intro env x m hm hx
    obtain ⟨htr, hpc⟩ := valid_body_checks kvs m hm
    have hx2 : x ∈ (runResolve (forwardPayload kvs) env).2 := by
      simpa [chat_completions, htr, hpc] using hx
    rw [runResolve_trace] at hx2
    exact resolveLoop_trace_payload (forwardPayload kvs) env none x hx2

/-- C10 witness: a temperature key supplied by the caller is forwarded
unchanged. -/
theorem c10_witness :
    jsonLookup (forwardPayload [("messages", Json.arr [])]) "temperature"
      = getKey [("messages", Json.arr [])] "temperature" :=
  (c10_forward_frame [("messages", Json.arr [])]).2.2.2.1 "temperature"
    (by decide) (by decide)

end NanoProxy
